import Mathlib

/-!
Verification of the shelephant diff/copy core against its specification.

The embedding models:
- the existence diff and copy loop of src/shelephant/local.py;
- the CLI command bodies shelephant_cp, shelephant_mv, shelephant_rm of
  src/shelephant/__init__.py.

The filesystem is abstracted by existence predicates (one per directory
root): os.path.exists(os.path.join(root, file)) becomes (present file).
External collaborators that are not part of the sources (dataset.Location,
rsync, output.copyplan, click.confirm) are inputs of an environment
structure; the command bodies are translated statement by statement.
-/

/-- Result dictionary of a diff. Python returns a dict whose keys vary by
code path; a missing key is modelled as none (the code reads missing keys
with dict.pop(key, [])). Field uv is the "?=" key, srcOnly is "->",
dstOnly is "<-". -/
structure Diff where
  eq : Option (List String)
  uv : Option (List String)
  srcOnly : Option (List String)
  dstOnly : Option (List String)
deriving DecidableEq, Repr

/-- Embedding of local.diff (src/shelephant/local.py, lines 30-60):
numpy boolean masking over the input list with the three masks
insource ∧ indest, insource ∧ ¬indest, ¬insource ∧ indest; the returned
dict has exactly the keys "?=", "->", "<-" (no "==" key). Boolean masking
preserves input order, hence List.filter. -/
def local_diff (insource indest : String → Bool) (files : List String) : Diff :=
  { eq := none
  , uv := some (files.filter fun f => insource f && indest f)
  , srcOnly := some (files.filter fun f => insource f && !(indest f))
  , dstOnly := some (files.filter fun f => !(insource f) && indest f) }

/-- The files of the input list present at a location (its file set,
relative to the diffed list). -/
def pathsOf (present : String → Bool) (files : List String) : List String :=
  files.filter present

/-- Effect of local.copy (src/shelephant/local.py, lines 11-27) on the
destination's existence predicate: after shutil.copy2 runs for every
listed file, a path exists at the destination iff it existed before or is
listed. The source side is untouched. -/
def copyEffect (indest : String → Bool) (files : List String) : String → Bool :=
  fun f => indest f || files.contains f

/-- Claim C1: the four DiffResult sets ("==", "?=", "->", "<-") of the
existence diff cover exactly the union of the two locations' file sets
(relative to the input list), and no path appears under two keys. -/
theorem C1_diff_partition (insource indest : String → Bool) (files : List String)
    (f : String) :
    ((f ∈ pathsOf insource files ∨ f ∈ pathsOf indest files) ↔
      (f ∈ (local_diff insource indest files).eq.getD [] ∨
       f ∈ (local_diff insource indest files).uv.getD [] ∨
       f ∈ (local_diff insource indest files).srcOnly.getD [] ∨
       f ∈ (local_diff insource indest files).dstOnly.getD []))
    ∧ ¬(f ∈ (local_diff insource indest files).uv.getD [] ∧
        f ∈ (local_diff insource indest files).srcOnly.getD [])
    ∧ ¬(f ∈ (local_diff insource indest files).uv.getD [] ∧
        f ∈ (local_diff insource indest files).dstOnly.getD [])
    ∧ ¬(f ∈ (local_diff insource indest files).srcOnly.getD [] ∧
        f ∈ (local_diff insource indest files).dstOnly.getD [])
    ∧ f ∉ (local_diff insource indest files).eq.getD [] := by
  simp only [local_diff, pathsOf, Option.getD_some, Option.getD_none, List.mem_filter,
    List.not_mem_nil, Bool.and_eq_true, Bool.not_eq_true']
  cases hs : insource f <;> cases hd : indest f <;> simp [and_comm]

/-- Claim C2: the existence diff classifies each file purely by the 2x2
existence matrix (both present gives "?=", source only gives "->", dest
only gives "<-"), and the result never contains a non-empty "==" entry
(indeed the "==" key is absent altogether). -/
theorem C2_existence_matrix (insource indest : String → Bool) (files : List String)
    (f : String) :
    (f ∈ (local_diff insource indest files).uv.getD [] ↔
      f ∈ files ∧ insource f = true ∧ indest f = true)
    ∧ (f ∈ (local_diff insource indest files).srcOnly.getD [] ↔
      f ∈ files ∧ insource f = true ∧ indest f = false)
    ∧ (f ∈ (local_diff insource indest files).dstOnly.getD [] ↔
      f ∈ files ∧ insource f = false ∧ indest f = true)
    ∧ (local_diff insource indest files).eq = none := by
  simp [local_diff, List.mem_filter, and_assoc]

/-- Claim C9: every list in the existence diff is an order-preserving
sublist of the input list, and a listed path that exists on neither side
appears in no relation. -/
theorem C9_order_preserving (insource indest : String → Bool) (files : List String) :
    List.Sublist ((local_diff insource indest files).uv.getD []) files
    ∧ List.Sublist ((local_diff insource indest files).srcOnly.getD []) files
    ∧ List.Sublist ((local_diff insource indest files).dstOnly.getD []) files
    ∧ ∀ f, insource f = false → indest f = false →
        f ∉ (local_diff insource indest files).uv.getD []
        ∧ f ∉ (local_diff insource indest files).srcOnly.getD []
        ∧ f ∉ (local_diff insource indest files).dstOnly.getD [] := by
  refine ⟨List.filter_sublist files, List.filter_sublist files, List.filter_sublist files, ?_⟩
  intro f hs hd
  simp [local_diff, List.mem_filter, hs, hd]

/-- Witness for C9 at a concrete input: a path existing on neither side is
kept out of every relation, and the "?=" list is a sublist of the input. -/
theorem C9_order_preserving_witness :
    List.Sublist ((local_diff (fun _ => false) (fun _ => false) ["a"]).uv.getD []) ["a"]
    ∧ "a" ∉ ((local_diff (fun _ => false) (fun _ => false) ["a"]).uv.getD []) := by
  have h := C9_order_preserving (fun _ => false) (fun _ => false) ["a"]
  exact ⟨h.1, (h.2.2.2 "a" rfl rfl).1⟩

/-- Transfer backends that the command bodies can dispatch. scpCopy is the
remote-shell backend of the scp module; it is listed so that statements
about backend selection can mention it. -/
inductive Backend where
  | rsyncCopy
  | localCopy
  | scpCopy
  | localMove
  | localRemove
deriving DecidableEq, Repr

/-- Observable outcome of one command invocation: the raised error message
(none on normal return), whether the manifest was read (dataset.Location
from_yaml), whether the interactive confirmation prompt ran, the lines
printed, and the backend calls performed (each with its file list); an
empty calls list means the filesystem was not mutated. -/
structure Outcome where
  err : Option String
  manifestRead : Bool
  prompted : Bool
  printed : List String
  calls : List (Backend × List String)
deriving DecidableEq, Repr

/-- Sequential first-occurrence removal: the Python statement
[files.remove(file) for file in equal] mutates files by erasing the first
occurrence of each element of equal in turn. -/
def eraseList (xs ys : List String) : List String :=
  ys.foldl (fun acc y => acc.erase y) xs

/-- Environment of shelephant_cp: the argument-dependent facts and the
external collaborators the function body consults. sourceFiles is
source.files(info=False); datasetEq is source.diff(dest)["=="] (the
sha256-verified files of the manifest-level diff; dataset.py is not among
the sources, so it is an abstract input); rsyncDiff abstracts
rsync.diff(source, dest, files); insource/indest are the existence
predicates of the two hostpaths used by local.diff; confirm is the answer
of click.confirm("Proceed?"). sshArg is the --ssh argument, recorded in
the destination Location; the body never branches on it. -/
structure CpEnv where
  sourceIsFile : Bool
  sshArg : Option String
  sourceFiles : List String
  datasetEq : List String
  hasRsync : Bool
  rsyncDiff : List String → Diff
  insource : String → Bool
  indest : String → Bool
  confirm : Bool

/-- Tail of shelephant_cp after the "<-" assertion (src/shelephant/
__init__.py lines 276-291): nothing-to-do short circuit, plan display and
confirmation, then dispatch of rsync.copy or local.copy over the remaining
files. -/
def cpFinish (force dryRun hasRsync confirm : Bool) (files equal : List String) :
    Outcome :=
  if files.isEmpty then
    { err := none, manifestRead := true, prompted := false
    , printed := [if equal.isEmpty then "Nothing to copy" else "All files equal"]
    , calls := [] }
  else if force = false then
    if dryRun then
      { err := none, manifestRead := true, prompted := false
      , printed := ["copyplan"], calls := [] }
    else if confirm = false then
      { err := some "Cancelled", manifestRead := true, prompted := true
      , printed := ["copyplan"], calls := [] }
    else if hasRsync then
      { err := none, manifestRead := true, prompted := true
      , printed := ["copyplan"], calls := [(Backend.rsyncCopy, files)] }
    else
      { err := none, manifestRead := true, prompted := true
      , printed := ["copyplan"], calls := [(Backend.localCopy, files)] }
  else
    if hasRsync then
      { err := none, manifestRead := true, prompted := false
      , printed := [], calls := [(Backend.rsyncCopy, files)] }
    else
      { err := none, manifestRead := true, prompted := false
      , printed := [], calls := [(Backend.localCopy, files)] }

/-- Embedding of shelephant_cp (src/shelephant/__init__.py lines 241-291),
statement by statement: the two argument assertions, manifest read,
removal of sha256-equal files, rsync or existence diff, removal of
rsync-equal files, the "<-" assertion, then cpFinish. -/
def shelephant_cp (force dryRun sha256 : Bool) (env : CpEnv) : Outcome :=
  if env.sourceIsFile = false then
    { err := some "Source must be a file", manifestRead := false, prompted := false
    , printed := [], calls := [] }
  else if dryRun && force then
    { err := some "Cannot use --force with --dry-run", manifestRead := false
    , prompted := false, printed := [], calls := [] }
  else
    let files1 := eraseList env.sourceFiles env.datasetEq
    if env.hasRsync && !sha256 then
      let status0 := env.rsyncDiff files1
      let rsEq := status0.eq.getD []
      let files2 := eraseList files1 rsEq
      let equal1 := env.datasetEq ++ rsEq
      if (status0.dstOnly.getD []).isEmpty = false then
        { err := some "Cannot copy from destination to source", manifestRead := true
        , prompted := false, printed := [], calls := [] }
      else
        cpFinish force dryRun env.hasRsync env.confirm files2 equal1
    else
      let status0 := local_diff env.insource env.indest files1
      if (status0.dstOnly.getD []).isEmpty = false then
        { err := some "Cannot copy from destination to source", manifestRead := true
        , prompted := false, printed := [], calls := [] }
      else
        cpFinish force dryRun env.hasRsync env.confirm files1 env.datasetEq

/-- The diff dictionary that shelephant_cp computes and asserts on:
rsync.diff when rsync is present and --sha256 is not given, the existence
diff otherwise. -/
def cpStatus (sha256 : Bool) (env : CpEnv) : Diff :=
  let files1 := eraseList env.sourceFiles env.datasetEq
  if env.hasRsync && !sha256 then env.rsyncDiff files1
  else local_diff env.insource env.indest files1

/-- The file list shelephant_cp hands to the transfer backend: the listed
files minus the sha256-equal ones, and minus the rsync-equal ones on the
rsync diff path. -/
def cpFiles (sha256 : Bool) (env : CpEnv) : List String :=
  let files1 := eraseList env.sourceFiles env.datasetEq
  if env.hasRsync && !sha256 then
    eraseList files1 ((env.rsyncDiff files1).eq.getD [])
  else files1

/-- Environment of shelephant_mv: argument facts, the manifest's file list
and remoteness, the existence predicates of source root and destination,
and the confirmation answer. -/
structure MvEnv where
  sourceIsFile : Bool
  destIsDir : Bool
  sshNone : Bool
  sourceFiles : List String
  insource : String → Bool
  indest : String → Bool
  confirm : Bool

/-- Embedding of shelephant_mv (src/shelephant/__init__.py lines 328-359):
three argument assertions, manifest read, remoteness assertion, existence
diff, "<-" assertion, nothing-to-do short circuit, plan display and
confirmation, then local.move over the full listed file set. -/
def shelephant_mv (force dryRun : Bool) (env : MvEnv) : Outcome :=
  if env.sourceIsFile = false then
    { err := some "Source must be a file", manifestRead := false, prompted := false
    , printed := [], calls := [] }
  else if env.destIsDir = false then
    { err := some "Destination must be a directory", manifestRead := false
    , prompted := false, printed := [], calls := [] }
  else if dryRun && force then
    { err := some "Cannot use --force with --dry-run", manifestRead := false
    , prompted := false, printed := [], calls := [] }
  else if env.sshNone = false then
    { err := some "Cannot move from remote", manifestRead := true, prompted := false
    , printed := [], calls := [] }
  else
    let files := env.sourceFiles
    let status0 := local_diff env.insource env.indest files
    if (status0.dstOnly.getD []).isEmpty = false then
      { err := some "Cannot move from destination to source", manifestRead := true
      , prompted := false, printed := [], calls := [] }
    else if files.isEmpty then
      { err := none, manifestRead := true, prompted := false
      , printed := ["Nothing to move"], calls := [] }
    else if force = false then
      if dryRun then
        { err := none, manifestRead := true, prompted := false
        , printed := ["copyplan"], calls := [] }
      else if env.confirm = false then
        { err := some "Cancelled", manifestRead := true, prompted := true
        , printed := ["copyplan"], calls := [] }
      else
        { err := none, manifestRead := true, prompted := true
        , printed := ["copyplan"], calls := [(Backend.localMove, files)] }
    else
      { err := none, manifestRead := true, prompted := false
      , printed := [], calls := [(Backend.localMove, files)] }

/-- Environment of shelephant_rm: argument facts, the manifest's file list
and remoteness, and the confirmation answer. -/
structure RmEnv where
  sourceIsFile : Bool
  sshNone : Bool
  sourceFiles : List String
  confirm : Bool

/-- Embedding of shelephant_rm (src/shelephant/__init__.py lines 395-423):
two argument assertions, manifest read, remoteness assertion,
nothing-to-do short circuit, per-file rm lines and confirmation, then
local.remove over the listed files. -/
def shelephant_rm (force dryRun : Bool) (env : RmEnv) : Outcome :=
  if env.sourceIsFile = false then
    { err := some "Source must be a file", manifestRead := false, prompted := false
    , printed := [], calls := [] }
  else if dryRun && force then
    { err := some "Cannot use --force with --dry-run", manifestRead := false
    , prompted := false, printed := [], calls := [] }
  else if env.sshNone = false then
    { err := some "Cannot move from remote", manifestRead := true, prompted := false
    , printed := [], calls := [] }
  else
    let files := env.sourceFiles
    if files.isEmpty then
      { err := none, manifestRead := true, prompted := false
      , printed := ["Nothing to remove"], calls := [] }
    else if force = false then
      let pr := files.map (fun file => "rm " ++ file)
      if dryRun then
        { err := none, manifestRead := true, prompted := false, printed := pr
        , calls := [] }
      else if env.confirm = false then
        { err := some "Cancelled", manifestRead := true, prompted := true
        , printed := pr, calls := [] }
      else
        { err := none, manifestRead := true, prompted := true, printed := pr
        , calls := [(Backend.localRemove, files)] }
    else
      { err := none, manifestRead := true, prompted := false, printed := []
      , calls := [(Backend.localRemove, files)] }

theorem eraseList_subset (ys xs : List String) : eraseList xs ys ⊆ xs := by
  induction ys generalizing xs with
  | nil => exact fun a ha => ha
  | cons y ys ih =>
      intro a ha
      simp only [eraseList, List.foldl_cons] at ha
      exact List.erase_subset y xs (ih (xs.erase y) ha)

theorem eraseList_nodup (ys : List String) {xs : List String} (h : xs.Nodup) :
    (eraseList xs ys).Nodup := by
  induction ys generalizing xs with
  | nil => exact h
  | cons y ys ih =>
      simp only [eraseList, List.foldl_cons]
      exact ih (h.erase y)

theorem not_mem_eraseList (ys : List String) {xs : List String} {f : String}
    (hnd : xs.Nodup) (hf : f ∈ ys) : f ∉ eraseList xs ys := by
  induction ys generalizing xs with
  | nil => cases hf
  | cons y ys ih =>
      simp only [eraseList, List.foldl_cons]
      rcases List.mem_cons.mp hf with rfl | hf'
      · intro hmem
        have hx : f ∈ xs.erase f := eraseList_subset ys (xs.erase f) hmem
        exact ((hnd.mem_erase_iff).mp hx).1 rfl
      · exact ih (hnd.erase y) hf'

/-- Base environment for concrete shelephant_cp runs used by witnesses and
counterexamples. -/
def baseCpEnv : CpEnv :=
  { sourceIsFile := true, sshArg := none, sourceFiles := ["a"], datasetEq := []
  , hasRsync := false
  , rsyncDiff := fun _ =>
      { eq := none, uv := some [], srcOnly := some [], dstOnly := some [] }
  , insource := fun _ => true, indest := fun _ => false, confirm := true }

/-- Base environment for concrete shelephant_mv runs. -/
def baseMvEnv : MvEnv :=
  { sourceIsFile := true, destIsDir := true, sshNone := true, sourceFiles := ["a"]
  , insource := fun _ => true, indest := fun _ => false, confirm := true }

/-- Base environment for concrete shelephant_rm runs. -/
def baseRmEnv : RmEnv :=
  { sourceIsFile := true, sshNone := true, sourceFiles := ["a"], confirm := true }

/-- Claim C10: when both the force flag and the dry-run flag are set, each
of shelephant_cp, shelephant_mv and shelephant_rm fails with the assertion
error "Cannot use --force with --dry-run" before reading any manifest and
without touching the filesystem (given that the preceding path-type
assertions pass). -/
theorem C10_force_dryrun (sha256 : Bool) (envC : CpEnv) (envM : MvEnv) (envR : RmEnv)
    (hC : envC.sourceIsFile = true) (hM1 : envM.sourceIsFile = true)
    (hM2 : envM.destIsDir = true) (hR : envR.sourceIsFile = true) :
    shelephant_cp true true sha256 envC =
      { err := some "Cannot use --force with --dry-run", manifestRead := false
      , prompted := false, printed := [], calls := [] }
    ∧ shelephant_mv true true envM =
      { err := some "Cannot use --force with --dry-run", manifestRead := false
      , prompted := false, printed := [], calls := [] }
    ∧ shelephant_rm true true envR =
      { err := some "Cannot use --force with --dry-run", manifestRead := false
      , prompted := false, printed := [], calls := [] } := by
  refine ⟨?_, ?_, ?_⟩
  · simp [shelephant_cp, hC]
  · simp [shelephant_mv, hM1, hM2]
  · simp [shelephant_rm, hR]

/-- Witness for C10 at concrete environments. -/
theorem C10_force_dryrun_witness :
    shelephant_cp true true false baseCpEnv =
      { err := some "Cannot use --force with --dry-run", manifestRead := false
      , prompted := false, printed := [], calls := [] }
    ∧ shelephant_mv true true baseMvEnv =
      { err := some "Cannot use --force with --dry-run", manifestRead := false
      , prompted := false, printed := [], calls := [] }
    ∧ shelephant_rm true true baseRmEnv =
      { err := some "Cannot use --force with --dry-run", manifestRead := false
      , prompted := false, printed := [], calls := [] } :=
  C10_force_dryrun false baseCpEnv baseMvEnv baseRmEnv rfl rfl rfl rfl

/-- Claim C3: whenever the diff computed by shelephant_cp or shelephant_mv
has a non-empty "<-" list, the command stops with a hard assertion error
before the confirmation prompt and before any backend call. -/
theorem C3_reverse_hard_error (force dryRun sha256 : Bool) (envC : CpEnv) (envM : MvEnv)
    (hC1 : envC.sourceIsFile = true) (hC2 : (dryRun && force) = false)
    (hC3 : ((cpStatus sha256 envC).dstOnly.getD []).isEmpty = false)
    (hM1 : envM.sourceIsFile = true) (hM2 : envM.destIsDir = true)
    (hM3 : envM.sshNone = true)
    (hM4 : ((local_diff envM.insource envM.indest envM.sourceFiles).dstOnly.getD
        []).isEmpty = false) :
    shelephant_cp force dryRun sha256 envC =
      { err := some "Cannot copy from destination to source", manifestRead := true
      , prompted := false, printed := [], calls := [] }
    ∧ shelephant_mv force dryRun envM =
      { err := some "Cannot move from destination to source", manifestRead := true
      , prompted := false, printed := [], calls := [] } := by
  constructor
  · unfold cpStatus at hC3
    by_cases hr : (envC.hasRsync && !sha256) = true
    · simp only [hr, if_true] at hC3
      simp [shelephant_cp, hC1, hC2, hr, hC3]
    · simp only [if_neg hr] at hC3
      simp [shelephant_cp, hC1, hC2, hC3]
      intro h1 h2
      exact absurd (show (envC.hasRsync && !sha256) = true by rw [h1, h2]; rfl) hr
  · simp [shelephant_mv, hM1, hM2, hM3, hM4, hC2]

/-- Environment whose destination holds a file the source lacks (copy). -/
def c3CpEnv : CpEnv :=
  { baseCpEnv with insource := fun _ => false, indest := fun _ => true }

/-- Environment whose destination holds a file the source lacks (move). -/
def c3MvEnv : MvEnv :=
  { baseMvEnv with insource := fun _ => false, indest := fun _ => true }

/-- Witness for C3 at concrete environments: a destination-only file makes
both commands fail hard with no prompt and no backend call. -/
theorem C3_reverse_hard_error_witness :
    shelephant_cp false false false c3CpEnv =
      { err := some "Cannot copy from destination to source", manifestRead := true
      , prompted := false, printed := [], calls := [] }
    ∧ shelephant_mv false false c3MvEnv =
      { err := some "Cannot move from destination to source", manifestRead := true
      , prompted := false, printed := [], calls := [] } :=
  C3_reverse_hard_error false false false c3CpEnv c3MvEnv rfl rfl (by decide)
    rfl rfl rfl (by decide)

/-- Tail behaviour of shelephant_cp when no files remain to transfer. -/
theorem cpFinish_empty (force dryRun hasRsync confirm : Bool) (files equal : List String)
    (h : files.isEmpty = true) :
    cpFinish force dryRun hasRsync confirm files equal =
      { err := none, manifestRead := true, prompted := false
      , printed := [if equal.isEmpty then "Nothing to copy" else "All files equal"]
      , calls := [] } := by
  simp [cpFinish, h]

/-- Claim C7: without the force flag, declining the interactive
confirmation makes shelephant_cp and shelephant_mv report "Cancelled" and
stop with no backend call; the outcome carries a non-none error, so it is
distinguishable from a successful run. -/
theorem C7_decline_cancels (sha256 : Bool) (envC : CpEnv) (envM : MvEnv)
    (hC1 : envC.sourceIsFile = true)
    (hC2 : ((cpStatus sha256 envC).dstOnly.getD []).isEmpty = true)
    (hC3 : (cpFiles sha256 envC).isEmpty = false)
    (hC4 : envC.confirm = false)
    (hM1 : envM.sourceIsFile = true) (hM2 : envM.destIsDir = true)
    (hM3 : envM.sshNone = true)
    (hM4 : ((local_diff envM.insource envM.indest envM.sourceFiles).dstOnly.getD
        []).isEmpty = true)
    (hM5 : envM.sourceFiles.isEmpty = false) (hM6 : envM.confirm = false) :
    shelephant_cp false false sha256 envC =
      { err := some "Cancelled", manifestRead := true, prompted := true
      , printed := ["copyplan"], calls := [] }
    ∧ shelephant_mv false false envM =
      { err := some "Cancelled", manifestRead := true, prompted := true
      , printed := ["copyplan"], calls := [] } := by
  constructor
  · unfold cpStatus at hC2
    unfold cpFiles at hC3
    by_cases hr : (envC.hasRsync && !sha256) = true
    · simp only [if_pos hr] at hC2 hC3
      simp [shelephant_cp, cpFinish, hC1, hr, hC2, hC3, hC4]
    · simp only [if_neg hr] at hC2 hC3
      simp [shelephant_cp, cpFinish, hC1, hC2, hC3, hC4]
      intro h1 h2
      exact absurd (show (envC.hasRsync && !sha256) = true by rw [h1, h2]; rfl) hr
  · simp [shelephant_mv, hM1, hM2, hM3, hM4, hM5, hM6]

/-- Witness for C7 at concrete environments (the listed file exists only at
the source; the user answers no). -/
theorem C7_decline_cancels_witness :
    shelephant_cp false false false { baseCpEnv with confirm := false } =
      { err := some "Cancelled", manifestRead := true, prompted := true
      , printed := ["copyplan"], calls := [] }
    ∧ shelephant_mv false false { baseMvEnv with confirm := false } =
      { err := some "Cancelled", manifestRead := true, prompted := true
      , printed := ["copyplan"], calls := [] } :=
  C7_decline_cancels false { baseCpEnv with confirm := false }
    { baseMvEnv with confirm := false } rfl (by decide) (by decide) rfl rfl rfl rfl
    (by decide) (by decide) rfl

/-- Claim C8: when the set of files to transfer is empty, each of
shelephant_cp, shelephant_mv and shelephant_rm prints an explicit
nothing-to-do notice and returns without error, before any confirmation
prompt and without any backend call. -/
theorem C8_nothing_to_do (force dryRun sha256 : Bool) (envC : CpEnv) (envM : MvEnv)
    (envR : RmEnv)
    (hfd : (dryRun && force) = false)
    (hC1 : envC.sourceIsFile = true)
    (hC2 : ((cpStatus sha256 envC).dstOnly.getD []).isEmpty = true)
    (hC3 : (cpFiles sha256 envC).isEmpty = true)
    (hM1 : envM.sourceIsFile = true) (hM2 : envM.destIsDir = true)
    (hM3 : envM.sshNone = true) (hM4 : envM.sourceFiles.isEmpty = true)
    (hR1 : envR.sourceIsFile = true) (hR2 : envR.sshNone = true)
    (hR3 : envR.sourceFiles.isEmpty = true) :
    ((shelephant_cp force dryRun sha256 envC).err = none
      ∧ (shelephant_cp force dryRun sha256 envC).prompted = false
      ∧ (shelephant_cp force dryRun sha256 envC).calls = []
      ∧ ((shelephant_cp force dryRun sha256 envC).printed = ["Nothing to copy"]
         ∨ (shelephant_cp force dryRun sha256 envC).printed = ["All files equal"]))
    ∧ shelephant_mv force dryRun envM =
      { err := none, manifestRead := true, prompted := false
      , printed := ["Nothing to move"], calls := [] }
    ∧ shelephant_rm force dryRun envR =
      { err := none, manifestRead := true, prompted := false
      , printed := ["Nothing to remove"], calls := [] } := by
  refine ⟨?_, ?_, ?_⟩
  · unfold cpStatus at hC2
    unfold cpFiles at hC3
    by_cases hr : (envC.hasRsync && !sha256) = true
    · simp only [if_pos hr] at hC2 hC3
      have hbody : shelephant_cp force dryRun sha256 envC =
          { err := none, manifestRead := true, prompted := false
          , printed := [if (envC.datasetEq ++
              ((envC.rsyncDiff (eraseList envC.sourceFiles envC.datasetEq)).eq.getD
                [])).isEmpty then "Nothing to copy" else "All files equal"]
          , calls := [] } := by
        simp [shelephant_cp, hC1, hfd, hr, hC2, cpFinish_empty _ _ _ _ _ _ hC3]
      rw [hbody]
      cases hq : (envC.datasetEq ++
          ((envC.rsyncDiff (eraseList envC.sourceFiles envC.datasetEq)).eq.getD
            [])).isEmpty <;> simp [hq]
    · simp only [if_neg hr] at hC2 hC3
      have hbody : shelephant_cp force dryRun sha256 envC =
          { err := none, manifestRead := true, prompted := false
          , printed := [if envC.datasetEq.isEmpty then "Nothing to copy"
              else "All files equal"]
          , calls := [] } := by
        simp [shelephant_cp, hC1, hfd, hC2, cpFinish_empty _ _ _ _ _ _ hC3]
        intro h1 h2
        exact absurd (show (envC.hasRsync && !sha256) = true by rw [h1, h2]; rfl) hr
      rw [hbody]
      cases hq : envC.datasetEq.isEmpty <;> simp [hq]
  · simp [shelephant_mv, local_diff, hM1, hM2, hM3, hM4, hfd,
      List.isEmpty_iff.mp hM4]
  · simp [shelephant_rm, hR1, hR2, hR3, hfd]

/-- Witness for C8 at concrete environments with empty file lists. -/
theorem C8_nothing_to_do_witness :
    ((shelephant_cp false false false { baseCpEnv with sourceFiles := [] }).err = none
      ∧ (shelephant_cp false false false { baseCpEnv with sourceFiles := [] }).prompted
          = false
      ∧ (shelephant_cp false false false { baseCpEnv with sourceFiles := [] }).calls = []
      ∧ ((shelephant_cp false false false
            { baseCpEnv with sourceFiles := [] }).printed = ["Nothing to copy"]
         ∨ (shelephant_cp false false false
            { baseCpEnv with sourceFiles := [] }).printed = ["All files equal"]))
    ∧ shelephant_mv false false { baseMvEnv with sourceFiles := [] } =
      { err := none, manifestRead := true, prompted := false
      , printed := ["Nothing to move"], calls := [] }
    ∧ shelephant_rm false false { baseRmEnv with sourceFiles := [] } =
      { err := none, manifestRead := true, prompted := false
      , printed := ["Nothing to remove"], calls := [] } :=
  C8_nothing_to_do false false false { baseCpEnv with sourceFiles := [] }
    { baseMvEnv with sourceFiles := [] } { baseRmEnv with sourceFiles := [] }
    rfl rfl (by decide) (by decide) rfl rfl rfl rfl rfl rfl rfl

/-- Reduction of shelephant_cp to its tail once the argument assertions and
the "<-" assertion pass (dry-run off). -/
theorem shelephant_cp_reduces (force sha256 : Bool) (env : CpEnv)
    (h1 : env.sourceIsFile = true)
    (h2 : ((cpStatus sha256 env).dstOnly.getD []).isEmpty = true) :
    shelephant_cp force false sha256 env =
      cpFinish force false env.hasRsync env.confirm (cpFiles sha256 env)
        (if (env.hasRsync && !sha256) = true
         then env.datasetEq ++
           ((env.rsyncDiff (eraseList env.sourceFiles env.datasetEq)).eq.getD [])
         else env.datasetEq) := by
  unfold cpStatus at h2
  unfold shelephant_cp cpFiles
  by_cases hr : (env.hasRsync && !sha256) = true
  · simp only [if_pos hr] at h2 ⊢
    simp [h1, h2, hr]
  · simp only [if_neg hr] at h2 ⊢
    simp [h1, h2]

/-- The backend call performed by the tail of shelephant_cp when files
remain and the run is confirmed (or forced). -/
theorem cpFinish_calls (force hasRsync confirm : Bool) (files equal : List String)
    (hne : files.isEmpty = false) (hc : force = false → confirm = true) :
    (cpFinish force false hasRsync confirm files equal).calls =
      [((if hasRsync then Backend.rsyncCopy else Backend.localCopy), files)] := by
  cases force
  · have hc' := hc rfl
    cases hasRsync <;> simp [cpFinish, hne, hc']
  · cases hasRsync <;> simp [cpFinish, hne]

/-- Environment with one listed file present on both sides, rsync absent,
nothing sha256-verified. -/
def c4Env : CpEnv := { baseCpEnv with indest := fun _ => true }

/-- Claim C4 counterexample: with no rsync and the single listed file
present on both sides (unverified), the computed diff classifies the file
"?=" and not "->", yet the backend is dispatched over it, so a "?=" file
is written on the destination. -/
theorem C4_counterexample :
    (shelephant_cp true false false c4Env).calls = [(Backend.localCopy, ["a"])]
    ∧ "a" ∈ ((cpStatus false c4Env).uv.getD [])
    ∧ "a" ∉ ((cpStatus false c4Env).srcOnly.getD [])
    ∧ (cpStatus false c4Env).eq.getD [] = [] := by decide

/-- Claim C4 amended: the backend is dispatched over exactly the listed
files not verified equal (the sha256 "==" files, plus the rsync "==" files
on the rsync path, are removed); "=="-verified files are never dispatched
(for duplicate-free manifests), and every "->" file is dispatched — but
"?=" files are dispatched as well. -/
theorem C4_amended_dispatch (force sha256 : Bool) (env : CpEnv)
    (h1 : env.sourceIsFile = true)
    (h2 : ((cpStatus sha256 env).dstOnly.getD []).isEmpty = true)
    (h3 : (cpFiles sha256 env).isEmpty = false)
    (h4 : force = false → env.confirm = true)
    (hnd : env.sourceFiles.Nodup) :
    (shelephant_cp force false sha256 env).calls =
      [((if env.hasRsync then Backend.rsyncCopy else Backend.localCopy),
        cpFiles sha256 env)]
    ∧ (∀ f ∈ env.datasetEq, f ∉ cpFiles sha256 env)
    ∧ ((env.hasRsync && !sha256) = true →
        ∀ f ∈ (env.rsyncDiff (eraseList env.sourceFiles env.datasetEq)).eq.getD [],
          f ∉ cpFiles sha256 env)
    ∧ ((env.hasRsync && !sha256) = false →
        ((cpStatus sha256 env).srcOnly.getD []) ⊆ cpFiles sha256 env
        ∧ ((cpStatus sha256 env).uv.getD []) ⊆ cpFiles sha256 env) := by
  refine ⟨?_, ?_, ?_, ?_⟩
  · rw [shelephant_cp_reduces force sha256 env h1 h2]
    exact cpFinish_calls force env.hasRsync env.confirm _ _ h3 h4
  · intro f hf
    unfold cpFiles
    by_cases hr : (env.hasRsync && !sha256) = true
    · simp only [if_pos hr]
      intro hmem
      exact not_mem_eraseList env.datasetEq hnd hf
        (eraseList_subset _ _ hmem)
    · simp only [if_neg hr]
      exact not_mem_eraseList env.datasetEq hnd hf
  · intro hr f hf
    unfold cpFiles
    simp only [if_pos hr]
    exact not_mem_eraseList _ (eraseList_nodup env.datasetEq hnd) hf
  · intro hr
    unfold cpStatus cpFiles
    rw [hr]
    simp only [Bool.false_eq_true, if_false, local_diff, Option.getD_some]
    exact ⟨(List.filter_sublist _).subset, (List.filter_sublist _).subset⟩

/-- Witness for the amended C4 at a concrete environment: the "?=" file is
dispatched, and the (empty) set of "=="-verified files is excluded. -/
theorem C4_amended_dispatch_witness :
    (shelephant_cp true false false c4Env).calls = [(Backend.localCopy, ["a"])]
    ∧ (∀ f ∈ c4Env.datasetEq, f ∉ cpFiles false c4Env) := by
  have h := C4_amended_dispatch true false c4Env rfl (by decide) (by decide)
    (fun hf => Bool.noConfusion hf) (by decide)
  refine ⟨?_, h.2.1⟩
  rw [h.1]
  decide

/-- Environment with rsync absent and a remote destination (--ssh set). -/
def c5Env : CpEnv := { baseCpEnv with sshArg := some "user@host" }

/-- Claim C5 counterexample: rsync is absent and the destination is remote,
yet the command dispatches the local filesystem backend and not the
remote-shell backend. -/
theorem C5_counterexample :
    c5Env.hasRsync = false
    ∧ c5Env.sshArg = some "user@host"
    ∧ (shelephant_cp true false false c5Env).calls = [(Backend.localCopy, ["a"])]
    ∧ Backend.localCopy ≠ Backend.scpCopy := by decide

/-- Claim C5 amended: backend selection consults only rsync availability —
rsync.copy when rsync is present, otherwise local.copy regardless of
whether a side is remote; the remote-shell backend is never dispatched by
the copy command. -/
theorem C5_amended_selection (force sha256 : Bool) (env : CpEnv)
    (h1 : env.sourceIsFile = true)
    (h2 : ((cpStatus sha256 env).dstOnly.getD []).isEmpty = true)
    (h3 : (cpFiles sha256 env).isEmpty = false)
    (h4 : force = false → env.confirm = true) :
    (shelephant_cp force false sha256 env).calls =
      [((if env.hasRsync then Backend.rsyncCopy else Backend.localCopy),
        cpFiles sha256 env)]
    ∧ ∀ fs, (Backend.scpCopy, fs) ∉ (shelephant_cp force false sha256 env).calls := by
  have hd : (shelephant_cp force false sha256 env).calls =
      [((if env.hasRsync then Backend.rsyncCopy else Backend.localCopy),
        cpFiles sha256 env)] := by
    rw [shelephant_cp_reduces force sha256 env h1 h2]
    exact cpFinish_calls force env.hasRsync env.confirm _ _ h3 h4
  refine ⟨hd, ?_⟩
  intro fs hmem
  rw [hd] at hmem
  have heq := List.mem_singleton.mp hmem
  cases henv : env.hasRsync <;> rw [henv] at heq <;> simp at heq

/-- Witness for the amended C5 at a concrete environment: remote
destination, rsync absent, local backend dispatched, remote-shell backend
absent from the calls. -/
theorem C5_amended_selection_witness :
    (shelephant_cp true false false c5Env).calls = [(Backend.localCopy, ["a"])]
    ∧ ∀ fs, (Backend.scpCopy, fs) ∉ (shelephant_cp true false false c5Env).calls := by
  have h := C5_amended_selection true false c5Env rfl (by decide) (by decide)
    (fun hf => Bool.noConfusion hf)
  refine ⟨?_, h.2⟩
  rw [h.1]
  decide

/-- Claim C6 counterexample: for a source holding the single listed file
and an initially empty destination, copy completes (the file exists at the
source), and the re-run diff leaves "->" and "<-" empty but classifies the
file "?=" — the "==" key is absent, so not every file is classified
equal. -/
theorem C6_counterexample :
    ((local_diff (fun f => f == "a") (copyEffect (fun _ => false) ["a"])
        ["a"]).srcOnly.getD []) = []
    ∧ ((local_diff (fun f => f == "a") (copyEffect (fun _ => false) ["a"])
        ["a"]).dstOnly.getD []) = []
    ∧ "a" ∈ ((local_diff (fun f => f == "a") (copyEffect (fun _ => false) ["a"])
        ["a"]).uv.getD [])
    ∧ "a" ∉ ((local_diff (fun f => f == "a") (copyEffect (fun _ => false) ["a"])
        ["a"]).eq.getD [])
    ∧ (fun g => g == "a") "a" = true := by decide

/-- Claim C6 amended: when copy runs to completion (every listed file
present at the source), re-running the existence diff on the same pair and
list yields empty "->" and "<-" lists and every listed file classified
"?=" — not "==", which the existence diff never produces. -/
theorem C6_amended_idempotence (insource indest : String → Bool) (files : List String)
    (h : ∀ f ∈ files, insource f = true) :
    local_diff insource (copyEffect indest files) files =
      { eq := none, uv := some files, srcOnly := some [], dstOnly := some [] } := by
  simp only [local_diff, copyEffect, Diff.mk.injEq, Option.some.injEq, true_and]
  refine ⟨?_, ?_, ?_⟩
  · refine List.filter_eq_self.mpr fun f hf => ?_
    simp [h f hf]
    exact Or.inr hf
  · refine List.filter_eq_nil_iff.mpr fun f hf => ?_
    simp [h f hf]
    exact fun _ => hf
  · refine List.filter_eq_nil_iff.mpr fun f hf => ?_
    simp [h f hf]

/-- Witness for the amended C6 at a concrete input. -/
theorem C6_amended_idempotence_witness :
    local_diff (fun _ => true) (copyEffect (fun _ => false) ["a"]) ["a"] =
      { eq := none, uv := some ["a"], srcOnly := some [], dstOnly := some [] } :=
  C6_amended_idempotence (fun _ => true) (fun _ => false) ["a"] (fun _ _ => rfl)
